import Mathlib

/-!
Shallow embedding of the MSVC toolchain adapter (`csbuild/toolchain_msvc.py`)
and verification of its specified properties.

Conventions of the embedding:
* Python strings become `String`, lists become `List`, machine-independent.
* `os.path.join` is modelled by `osPathJoin` for the cases the code
  exercises (relative second component, Windows separator).
* `os.path.normpath` is an external library primitive about whose internals
  the code assumes nothing; functions that call it take it as an explicit
  parameter `np : String → String`.
* `os.environ` is modelled by `env : String → Option String`; an absent key
  (Python `KeyError`) becomes the error `SetupError.toolchainNotFound`.
* The `vcvarsall.bat` subprocess is modelled by
  `spawn : Bool → Option (List String)`: given the chosen 64-bit flag it
  either fails to start (`none`, Python raising from `subprocess.Popen`,
  modelled as `SetupError.environmentScriptError`) or yields the captured
  standard-output lines.
* The process-wide globals `HAS_SET_VC_VARS` / `WINDOWS_SDK_DIR` become the
  explicitly threaded `VcVarsState`.
* String building with `str.format` / `+=` becomes `++` / `List.foldl` in
  the same order as the source.
-/

namespace Msvc

/-- Python `str.lower` restricted to ASCII (sufficient for the keys the
dictionary of recognized architectures uses). -/
def strLower (s : String) : String := String.mk (s.data.map Char.toLower)

/-- Python `str.startswith`, computed on the character lists. -/
def listIsPrefixOfB : List Char → List Char → Bool
  | [], _ => true
  | _ :: _, [] => false
  | a :: as, b :: bs => a == b && listIsPrefixOfB as bs

/-- Python `line.startswith(p)`. -/
def str_startswith (p s : String) : Bool := listIsPrefixOfB p.data s.data

/-- Concatenation of a list of strings (no separator). -/
def strJoin : List String → String
  | [] => ""
  | x :: xs => x ++ strJoin xs

/-- Python `sep.join(l)`. -/
def pyStrJoin (sep : String) : List String → String
  | [] => ""
  | [x] => x
  | x :: xs => x ++ sep ++ pyStrJoin sep xs

/-- Python `str.endswith`, computed on the character lists. -/
def str_endswith (s post : String) : Bool := listIsPrefixOfB post.data.reverse s.data.reverse

/-- Model of `os.path.join a b` (Windows flavour) for the cases this code
exercises: the second component is relative; no separator is inserted after
an empty or separator-terminated first component. -/
def osPathJoin (a b : String) : String :=
  if a = "" then b
  else if str_endswith a "\\" || str_endswith a "/" || str_endswith a ":" then a ++ b
  else a ++ "\\" ++ b

/-- The two-valued architecture tag (module constants `X64` / `X86`). -/
inductive Arch
  | X64
  | X86
deriving DecidableEq

/-- The `SubSystem` enumeration (eleven values, `DEFAULT` first). -/
inductive SubSystem
  | DEFAULT
  | CONSOLE
  | WINDOWS
  | WINDOWS_CE
  | NATIVE
  | POSIX
  | BOOT_APPLICATION
  | EFI_APPLICATION
  | EFI_BOOT_SERVICE_DRIVER
  | EFI_ROM
  | EFI_RUNTIME_DRIVER
deriving DecidableEq

/-- The `csbuild.ProjectType` values this adapter distinguishes. -/
inductive ProjectType
  | Application
  | StaticLibrary
  | SharedLibrary
deriving DecidableEq

/-- The fields of the external settings record (`project.settings`) that the
adapter reads. -/
structure ProjectSettings where
  force_64_bit : Bool
  force_32_bit : Bool
  static : Bool
  profile : Bool
  debug_level : Nat
  type : ProjectType
  static_runtime : Bool
  no_warnings : Bool
  warnings_as_errors : Bool
  defines : List String
  undefines : List String
  include_dirs : List String
  library_dirs : List String
  libraries : List String
  static_libraries : List String
  shared_libraries : List String
  compiler_flags : List String
  linker_flags : List String
deriving DecidableEq

/-- The process-wide globals `HAS_SET_VC_VARS` and `WINDOWS_SDK_DIR`. -/
structure VcVarsState where
  has_set_vc_vars : Bool
  windows_sdk_dir : String
deriving DecidableEq

/-- Failures of `SetupForProject`: the missing installation-hint environment
variable (Python `KeyError` from `os.environ[...]`), and the setup script
failing to start (Python exception from `subprocess.Popen`). -/
inductive SetupError
  | toolchainNotFound
  | environmentScriptError
deriving DecidableEq

/-- The instance attributes of `toolchain_msvc` that command building reads:
the settings record, the `debug_runtime` settings override, the chosen
subsystem, and the paths/architecture computed by `SetupForProject`. -/
structure ToolchainMsvc where
  project_settings : ProjectSettings
  debug_runtime : Bool
  subsystem : SubSystem
  toolchain_path : String
  bin_path : String
  include_path : List String
  lib_path : List String
  platform_arch : Arch
  build_64_bit : Bool
deriving DecidableEq

/-- The `platform_architectures` dictionary of `SetupForProject`. -/
def platform_architectures : List (String × Arch) :=
  [("amd64", Arch.X64), ("x86_64", Arch.X64), ("x86", Arch.X86), ("i386", Arch.X86)]

/-- Transcribes `platform_architectures.get(platform.machine().lower(), X86)`. -/
def platform_arch (machine : String) : Arch :=
  (platform_architectures.lookup (strLower machine)).getD Arch.X86

/-- The 64-bit decision of `SetupForProject` (the `if`/`elif` on
`force_64_bit` / `force_32_bit`). -/
def compute_build_64_bit (arch : Arch) (s : ProjectSettings) : Bool :=
  if arch = Arch.X64 ∧ s.force_64_bit = false ∧ s.force_32_bit = false then true
  else if s.force_64_bit = true then true
  else false

/-- The environment-variable name `"VS{}COMNTOOLS".format(msvc_version)`. -/
def vcEnvVarName (msvc_version : Nat) : String :=
  "VS" ++ toString msvc_version ++ "COMNTOOLS"

/-- The part of `SetupForProject` before the memoized global block: computes
the toolchain/bin/include/lib paths and the architecture decision from the
value `ev` of the installation-hint environment variable. -/
def setupBase (np : String → String) (ev : String) (machine : String)
    (s : ProjectSettings) (dr : Bool) (ss : SubSystem) : ToolchainMsvc :=
  let toolchain_path := np (osPathJoin (osPathJoin (osPathJoin ev "..") "..") "VC")
  let bin_path := osPathJoin toolchain_path "bin"
  let include_path := [osPathJoin toolchain_path "include"]
  let lib_path := [osPathJoin toolchain_path "lib"]
  let arch := platform_arch machine
  let b64 := compute_build_64_bit arch s
  let bin_path :=
    if b64 then osPathJoin bin_path (if arch = Arch.X64 then "amd64" else "x86_amd64")
    else bin_path
  let lib_path :=
    if b64 then lib_path.set 0 (osPathJoin (lib_path.headD "") "amd64") else lib_path
  { project_settings := s
    debug_runtime := dr
    subsystem := ss
    toolchain_path := toolchain_path
    bin_path := bin_path
    include_path := include_path
    lib_path := lib_path
    platform_arch := arch
    build_64_bit := b64 }

/-- Python `line.split("=", 1)[1]` for a line known to contain a `=`. -/
def afterFirstEq : List Char → List Char
  | [] => []
  | c :: cs => if c = '=' then cs else afterFirstEq cs

/-- The line scan of `SetupForProject`: the value of the first output line
beginning with `WindowsSdkDir=`, if any (the `for`/`break` loop). -/
def findSdkLine : List String → Option String
  | [] => none
  | line :: rest =>
      if str_startswith "WindowsSdkDir=" line then some (String.mk (afterFirstEq line.data))
      else findSdkLine rest

/-- The two appends after the global block of `SetupForProject`: the SDK
include directory and the (architecture-qualified) SDK library directory. -/
def appendSdk (t : ToolchainMsvc) (sdk : String) : ToolchainMsvc :=
  { t with
    include_path := t.include_path ++ [osPathJoin sdk "include"]
    lib_path :=
      t.lib_path ++ [osPathJoin (osPathJoin sdk "lib") (if t.build_64_bit then "x64" else "")] }

/-- Transcribes `SetupForProject`. Returns the computed instance attributes, the updated
process-wide state, and whether the environment-setup subprocess was spawned
by this call. -/
def SetupForProject (np : String → String) (env : String → Option String)
    (machine : String) (spawn : Bool → Option (List String)) (msvc_version : Nat)
    (dr : Bool) (ss : SubSystem) (s : ProjectSettings) (st : VcVarsState) :
    Except SetupError (ToolchainMsvc × VcVarsState × Bool) :=
  match env (vcEnvVarName msvc_version) with
  | none => Except.error SetupError.toolchainNotFound
  | some ev =>
      let base := setupBase np ev machine s dr ss
      if st.has_set_vc_vars then
        Except.ok (appendSdk base st.windows_sdk_dir, st, false)
      else
        match spawn base.build_64_bit with
        | none => Except.error SetupError.environmentScriptError
        | some output_lines =>
            let sdk := (findSdkLine output_lines).getD st.windows_sdk_dir
            Except.ok (appendSdk base sdk, ⟨true, sdk⟩, true)

/-- A sequence of `SetupForProject` calls in one process, threading the
process-wide state; records each call's outcome (`none` for a failed call)
together with its spawned-a-subprocess flag. -/
def runSetups (np : String → String) (env : String → Option String)
    (machine : String) (spawn : Bool → Option (List String)) (msvc_version : Nat)
    (dr : Bool) (ss : SubSystem) :
    List ProjectSettings → VcVarsState →
      List (Option (ToolchainMsvc × Bool)) × VcVarsState
  | [], st => ([], st)
  | s :: rest, st =>
      match SetupForProject np env machine spawn msvc_version dr ss s st with
      | Except.error _ =>
          let r := runSetups np env machine spawn msvc_version dr ss rest st
          (none :: r.1, r.2)
      | Except.ok (f, st1, sp) =>
          let r := runSetups np env machine spawn msvc_version dr ss rest st1
          (some (f, sp) :: r.1, r.2)

/-- Transcribes `_get_compiler_exe`. -/
def get_compiler_exe (t : ToolchainMsvc) : String :=
  "\"" ++ osPathJoin t.bin_path "cl" ++ "\" "

/-- Transcribes `_get_linker_exe`: the archiver `lib` for a static library, else `link`. -/
def get_linker_exe (t : ToolchainMsvc) : String :=
  "\"" ++ osPathJoin t.bin_path (if t.project_settings.static then "lib" else "link") ++ "\" "

/-- Transcribes `_get_default_compiler_args`. -/
def get_default_compiler_args : String := "/nologo /c /arch:AVX "

/-- Transcribes `_get_default_linker_args`. -/
def get_default_linker_args (t : ToolchainMsvc) : String :=
  t.lib_path.foldl (fun a p => a ++ ("/LIBPATH:\"" ++ p ++ "\" ")) "/NOLOGO "

/-- Transcribes `_get_preprocessor_definition_args`: the defines, then the undefines. -/
def get_preprocessor_definition_args (t : ToolchainMsvc) : String :=
  let define_args := t.project_settings.defines.foldl (fun a n => a ++ ("/D" ++ n ++ " ")) ""
  t.project_settings.undefines.foldl (fun a n => a ++ ("/U" ++ n ++ " ")) define_args

/-- Transcribes `_get_architecture_arg`. -/
def get_architecture_arg (t : ToolchainMsvc) : String :=
  "/MACHINE:" ++ (if t.build_64_bit then "X64" else "X86") ++ " "

/-- Transcribes `_get_runtime_linkage_arg`. -/
def get_runtime_linkage_arg (t : ToolchainMsvc) : String :=
  "/" ++ (if t.project_settings.static_runtime then "MT" else "MD")
    ++ (if t.debug_runtime then "d" else "") ++ " "

/-- Transcribes `_get_runtime_library_arg`. -/
def get_runtime_library_arg (t : ToolchainMsvc) : String :=
  "/DEFAULTLIB:" ++ (if t.project_settings.static_runtime then "libcmt" else "msvcrt")
    ++ (if t.debug_runtime then "d" else "") ++ ".lib "

/-- The `sub_system_type` dictionary of `_get_subsystem_arg`. The dictionary
has no entry for `DEFAULT`; that case is guarded out before the lookup, so
its value here is never used. -/
def sub_system_type : SubSystem → String
  | SubSystem.DEFAULT => ""
  | SubSystem.CONSOLE => "CONSOLE"
  | SubSystem.WINDOWS => "WINDOWS"
  | SubSystem.WINDOWS_CE => "WINDOWSCE"
  | SubSystem.NATIVE => "NATIVE"
  | SubSystem.POSIX => "POSIX"
  | SubSystem.BOOT_APPLICATION => "BOOT_APPLICATION"
  | SubSystem.EFI_APPLICATION => "EFI_APPLICATION"
  | SubSystem.EFI_BOOT_SERVICE_DRIVER => "EFI_BOOT_SERVICE_DRIVER"
  | SubSystem.EFI_ROM => "EFI_ROM"
  | SubSystem.EFI_RUNTIME_DRIVER => "EFI_RUNTIME_DRIVER"

/-- Transcribes `_get_subsystem_arg`: nothing for `DEFAULT`, else one token from the
fixed table. -/
def get_subsystem_arg (t : ToolchainMsvc) : String :=
  if t.subsystem = SubSystem.DEFAULT then ""
  else "/SUBSYSTEM:" ++ sub_system_type t.subsystem ++ " "

/-- Transcribes `_get_non_static_library_linker_args`: empty for a static library, else
the dynamic-only flags. -/
def get_non_static_library_linker_args (t : ToolchainMsvc) : String :=
  if t.project_settings.static then ""
  else
    get_runtime_library_arg t
      ++ (if t.project_settings.profile then "/PROFILE " else "")
      ++ (if t.project_settings.profile ∨ t.project_settings.debug_level > 0 then "/DEBUG "
          else "")
      ++ (if t.project_settings.type = ProjectType.SharedLibrary then "/DLL " else "")

/-- Transcribes `_get_library_args`: the three library-name lists, each suffixed `.lib`
and quoted. -/
def get_library_args (t : ToolchainMsvc) : String :=
  (t.project_settings.libraries ++ t.project_settings.static_libraries
      ++ t.project_settings.shared_libraries).foldl
    (fun a l => a ++ ("\"" ++ l ++ ".lib\" ")) ""

/-- Transcribes `_get_warning_args`: `no_warnings` is checked first. -/
def get_warning_args (t : ToolchainMsvc) : String :=
  if t.project_settings.no_warnings then "/w "
  else if t.project_settings.warnings_as_errors then "/WX "
  else ""

/-- Transcribes `_get_linker_warning_arg`. -/
def get_linker_warning_arg (t : ToolchainMsvc) : String :=
  "/WX" ++ (if t.project_settings.warnings_as_errors then "" else ":NO") ++ " "

/-- Transcribes `_get_include_directory_args`: the user directories (normalized), then
the default directories. -/
def get_include_directory_args (np : String → String) (t : ToolchainMsvc) : String :=
  let include_dir_args :=
    t.project_settings.include_dirs.foldl (fun a d => a ++ ("/I\"" ++ np d ++ "\" ")) ""
  t.include_path.foldl (fun a d => a ++ ("/I\"" ++ d ++ "\" ")) include_dir_args

/-- Transcribes `_get_library_directory_args`. -/
def get_library_directory_args (np : String → String) (t : ToolchainMsvc) : String :=
  t.project_settings.library_dirs.foldl (fun a d => a ++ ("/LIBPATH:\"" ++ np d ++ "\" ")) ""

/-- Transcribes `_get_linker_output_arg`. -/
def get_linker_output_arg (output_file : String) : String :=
  "/OUT:\"" ++ output_file ++ "\" "

/-- Transcribes `_get_linker_obj_file_args`. The source formats each object file with
the pattern quote, path, space, quote — transcribed verbatim. -/
def get_linker_obj_file_args (obj_file_list : List String) : String :=
  obj_file_list.foldl (fun a ob => a ++ ("\"" ++ ob ++ " \"")) ""

/-- Transcribes `_get_compiler_args`. -/
def get_compiler_args (np : String → String) (t : ToolchainMsvc) : String :=
  get_default_compiler_args ++ get_preprocessor_definition_args t
    ++ get_runtime_linkage_arg t ++ get_warning_args t ++ get_include_directory_args np t

/-- Transcribes `_get_linker_args`. -/
def get_linker_args (np : String → String) (t : ToolchainMsvc) (output_file : String)
    (obj_list : List String) : String :=
  get_default_linker_args t ++ get_non_static_library_linker_args t
    ++ get_subsystem_arg t ++ get_architecture_arg t ++ get_linker_warning_arg t
    ++ get_library_directory_args np t ++ get_linker_output_arg output_file
    ++ get_library_args t ++ get_linker_obj_file_args obj_list

/-- Transcribes `getCompilerCommand`. -/
def getCompilerCommand (np : String → String) (t : ToolchainMsvc) : String :=
  get_compiler_exe t ++ get_compiler_args np t
    ++ pyStrJoin " " t.project_settings.compiler_flags

/-- Transcribes `getExtendedCompilerArgs`: appends the output-object and input-file
arguments to an already-built base command. -/
def getExtendedCompilerArgs (base_cmd force_include_file output_obj input_file : String) :
    String :=
  base_cmd ++ "/Fo\"" ++ output_obj ++ "\" \"" ++ input_file ++ "\""

/-- Transcribes `getLinkerCommand`. -/
def getLinkerCommand (np : String → String) (t : ToolchainMsvc) (output_file : String)
    (obj_list : List String) : String :=
  get_linker_exe t ++ get_linker_args np t output_file obj_list
    ++ pyStrJoin " " t.project_settings.linker_flags

/-- Transcribes `find_library`: appends `.lib` and returns the first existing candidate
path, else `None`. The filesystem existence check is the parameter
`fsExists`. -/
def find_library (fsExists : String → Bool) (library : String)
    (library_dirs : List String) ( force_static force_shared : Bool) : Option String :=
  let lib := library ++ ".lib"
  go fsExists lib library_dirs
where
  go (fsExists : String → Bool) (lib : String) : List String → Option String
    | [] => none
    | lib_dir :: rest =>
        let lib_file_path := osPathJoin lib_dir lib
        if fsExists lib_file_path then some lib_file_path else go fsExists lib rest

/-- The compiler command of `getCompilerCommand`, as the list of the argument
fragments it concatenates, in emission order (the Python `" ".join` of the
free-form flags contributes the flags interleaved with single spaces). -/
def compiler_fragments (np : String → String) (t : ToolchainMsvc) : List String :=
  [get_compiler_exe t]
    ++ [get_default_compiler_args]
    ++ t.project_settings.defines.map (fun n => "/D" ++ n ++ " ")
    ++ t.project_settings.undefines.map (fun n => "/U" ++ n ++ " ")
    ++ [get_runtime_linkage_arg t]
    ++ [get_warning_args t]
    ++ t.project_settings.include_dirs.map (fun d => "/I\"" ++ np d ++ "\" ")
    ++ t.include_path.map (fun d => "/I\"" ++ d ++ "\" ")
    ++ List.intersperse " " t.project_settings.compiler_flags

/-- The fragments of `_get_non_static_library_linker_args`. -/
def non_static_library_linker_fragments (t : ToolchainMsvc) : List String :=
  if t.project_settings.static then []
  else
    [get_runtime_library_arg t]
      ++ (if t.project_settings.profile then ["/PROFILE "] else [])
      ++ (if t.project_settings.profile ∨ t.project_settings.debug_level > 0 then ["/DEBUG "]
          else [])
      ++ (if t.project_settings.type = ProjectType.SharedLibrary then ["/DLL "] else [])

/-- The fragments of `_get_subsystem_arg`. -/
def subsystem_fragments (t : ToolchainMsvc) : List String :=
  if t.subsystem = SubSystem.DEFAULT then []
  else ["/SUBSYSTEM:" ++ sub_system_type t.subsystem ++ " "]

/-- The linker command of `getLinkerCommand`, as the list of the argument
fragments it concatenates, in emission order. -/
def linker_fragments (np : String → String) (t : ToolchainMsvc) (output_file : String)
    (obj_list : List String) : List String :=
  [get_linker_exe t]
    ++ ["/NOLOGO "]
    ++ t.lib_path.map (fun p => "/LIBPATH:\"" ++ p ++ "\" ")
    ++ non_static_library_linker_fragments t
    ++ subsystem_fragments t
    ++ [get_architecture_arg t]
    ++ [get_linker_warning_arg t]
    ++ t.project_settings.library_dirs.map (fun d => "/LIBPATH:\"" ++ np d ++ "\" ")
    ++ [get_linker_output_arg output_file]
    ++ (t.project_settings.libraries ++ t.project_settings.static_libraries
        ++ t.project_settings.shared_libraries).map (fun l => "\"" ++ l ++ ".lib\" ")
    ++ obj_list.map (fun ob => "\"" ++ ob ++ " \"")
    ++ List.intersperse " " t.project_settings.linker_flags

/-- A settings record with everything off/empty, used to instantiate
universally quantified theorems at a concrete input. -/
def test_settings : ProjectSettings :=
  { force_64_bit := false
    force_32_bit := false
    static := false
    profile := false
    debug_level := 0
    type := ProjectType.Application
    static_runtime := false
    no_warnings := false
    warnings_as_errors := false
    defines := []
    undefines := []
    include_dirs := []
    library_dirs := []
    libraries := []
    static_libraries := []
    shared_libraries := []
    compiler_flags := []
    linker_flags := [] }

/-- A concrete toolchain state used to instantiate universally quantified
theorems at a concrete input. -/
def test_toolchain : ToolchainMsvc :=
  { project_settings := test_settings
    debug_runtime := false
    subsystem := SubSystem.DEFAULT
    toolchain_path := "C:\\VC"
    bin_path := "C:\\VC\\bin"
    include_path := ["C:\\VC\\include"]
    lib_path := ["C:\\VC\\lib"]
    platform_arch := Arch.X86
    build_64_bit := false }

/-! ## General helper lemmas -/

theorem strJoin_append (a b : List String) : strJoin (a ++ b) = strJoin a ++ strJoin b := by
  induction a with
  | nil => simp [strJoin, String.empty_append]
  | cons x xs ih => simp [strJoin, ih, String.append_assoc]

theorem foldl_append_eq {α : Type} (f : α → String) (l : List α) (init : String) :
    l.foldl (fun a d => a ++ f d) init = init ++ strJoin (l.map f) := by
  induction l generalizing init with
  | nil => simp [strJoin, String.append_empty]
  | cons x xs ih =>
      simp only [List.foldl_cons, List.map_cons, strJoin]
      rw [ih, String.append_assoc]

theorem strJoin_intersperse (sep : String) :
    ∀ l : List String, strJoin (List.intersperse sep l) = pyStrJoin sep l
  | [] => rfl
  | [x] => by simp [List.intersperse, strJoin, pyStrJoin, String.append_empty]
  | x :: y :: rest => by
      simp only [List.intersperse, strJoin, pyStrJoin]
      rw [strJoin_intersperse sep (y :: rest), String.append_assoc]

theorem mem_intersperse {sep x : String} :
    ∀ {l : List String}, x ∈ List.intersperse sep l → x = sep ∨ x ∈ l
  | [], h => by simp [List.intersperse] at h
  | [a], h => by
      simp only [List.intersperse] at h
      exact Or.inr h
  | a :: b :: rest, h => by
      simp only [List.intersperse, List.mem_cons] at h
      rcases h with h | h | h
      · exact Or.inr (by simp [h])
      · exact Or.inl h
      · rcases mem_intersperse h with h2 | h2
        · exact Or.inl h2
        · exact Or.inr (by simp [List.mem_cons] at h2 ⊢; tauto)

theorem ne_of_take (n : Nat) (a b : String) (h : a.data.take n ≠ b.data.take n) :
    a ≠ b := by
  intro e
  exact h (by rw [e])

theorem take_of_lit_append (n : Nat) (lit x : String) (h : n ≤ lit.data.length) :
    ((lit ++ x).data).take n = lit.data.take n := by
  have hd : (lit ++ x).data = lit.data ++ x.data := rfl
  rw [hd, List.take_append_of_le_length h]

theorem not_prefix_of_take (n : Nat) (pat f : List Char) (hlen : n ≤ pat.length)
    (h : pat.take n ≠ f.take n) : ¬ pat <+: f := by
  rintro ⟨t, ht⟩
  exact h (by rw [← ht, List.take_append_of_le_length hlen])

theorem listIsPrefixOfB_eq_true_iff : ∀ p l : List Char, listIsPrefixOfB p l = true ↔ p <+: l
  | [], l => by simp [listIsPrefixOfB]
  | a :: as, [] => by
      simp only [listIsPrefixOfB]
      constructor
      · intro h; cases h
      · intro h
        have := h.length_le
        simp at this
  | a :: as, b :: bs => by
      simp only [listIsPrefixOfB, Bool.and_eq_true, beq_iff_eq]
      rw [listIsPrefixOfB_eq_true_iff as bs]
      constructor
      · rintro ⟨rfl, t, ht⟩
        exact ⟨t, by rw [List.cons_append, ht]⟩
      · intro h
        rcases h with ⟨t, ht⟩
        injection ht with h1 h2
        exact ⟨h1, t, h2⟩

theorem str_startswith_iff (p s : String) : str_startswith p s = true ↔ p.data <+: s.data :=
  listIsPrefixOfB_eq_true_iff p.data s.data

theorem str_startswith_eq_false_of_take (n : Nat) (p s : String)
    (hn : n ≤ p.data.length) (h : p.data.take n ≠ s.data.take n) :
    str_startswith p s = false := by
  rw [Bool.eq_false_iff]
  intro hb
  exact not_prefix_of_take n p.data s.data hn h ((str_startswith_iff p s).mp hb)

theorem str_startswith_append (p x : String) : str_startswith p (p ++ x) = true :=
  (str_startswith_iff p (p ++ x)).mpr ⟨x.data, rfl⟩

/-- The recognized-architecture lookup: the result is 64-bit exactly for the
two 64-bit keys, after lower-casing; anything else (including the two 32-bit
keys) yields 32-bit. -/
theorem platform_arch_x64_iff (machine : String) :
    platform_arch machine = Arch.X64 ↔
      (strLower machine = "amd64" ∨ strLower machine = "x86_64") := by
  unfold platform_arch platform_architectures
  simp only [List.lookup]
  by_cases h1 : strLower machine = "amd64"
  · simp [beq_iff_eq, h1]
  · by_cases h2 : strLower machine = "x86_64"
    · simp [beq_iff_eq, h1, h2]
    · by_cases h3 : strLower machine = "x86"
      · simp [beq_iff_eq, h1, h2, h3]
      · by_cases h4 : strLower machine = "i386"
        · simp [beq_iff_eq, h1, h2, h3, h4]
        · have b1 : (strLower machine == "amd64") = false := beq_eq_false_iff_ne.mpr h1
          have b2 : (strLower machine == "x86_64") = false := beq_eq_false_iff_ne.mpr h2
          have b3 : (strLower machine == "x86") = false := beq_eq_false_iff_ne.mpr h3
          have b4 : (strLower machine == "i386") = false := beq_eq_false_iff_ne.mpr h4
          simp [b1, b2, b3, b4, h1, h2]

/-! ## Join equations: each fragment builder equals the join of its fragments -/

theorem get_default_linker_args_eq (t : ToolchainMsvc) :
    get_default_linker_args t =
      "/NOLOGO " ++ strJoin (t.lib_path.map (fun p => "/LIBPATH:\"" ++ p ++ "\" ")) :=
  foldl_append_eq _ _ _

theorem get_preprocessor_definition_args_eq (t : ToolchainMsvc) :
    get_preprocessor_definition_args t =
      strJoin (t.project_settings.defines.map (fun n => "/D" ++ n ++ " "))
        ++ strJoin (t.project_settings.undefines.map (fun n => "/U" ++ n ++ " ")) := by
  unfold get_preprocessor_definition_args
  rw [foldl_append_eq, foldl_append_eq, String.empty_append]

theorem get_include_directory_args_eq (np : String → String) (t : ToolchainMsvc) :
    get_include_directory_args np t =
      strJoin (t.project_settings.include_dirs.map (fun d => "/I\"" ++ np d ++ "\" "))
        ++ strJoin (t.include_path.map (fun d => "/I\"" ++ d ++ "\" ")) := by
  unfold get_include_directory_args
  rw [foldl_append_eq, foldl_append_eq, String.empty_append]

theorem get_library_directory_args_eq (np : String → String) (t : ToolchainMsvc) :
    get_library_directory_args np t =
      strJoin (t.project_settings.library_dirs.map (fun d => "/LIBPATH:\"" ++ np d ++ "\" ")) := by
  unfold get_library_directory_args
  rw [foldl_append_eq, String.empty_append]

theorem get_library_args_eq (t : ToolchainMsvc) :
    get_library_args t =
      strJoin ((t.project_settings.libraries ++ t.project_settings.static_libraries
          ++ t.project_settings.shared_libraries).map (fun l => "\"" ++ l ++ ".lib\" ")) := by
  unfold get_library_args
  rw [foldl_append_eq, String.empty_append]

theorem get_linker_obj_file_args_eq (obj_file_list : List String) :
    get_linker_obj_file_args obj_file_list =
      strJoin (obj_file_list.map (fun ob => "\"" ++ ob ++ " \"")) := by
  unfold get_linker_obj_file_args
  rw [foldl_append_eq, String.empty_append]

theorem non_static_library_linker_fragments_join (t : ToolchainMsvc) :
    strJoin (non_static_library_linker_fragments t) = get_non_static_library_linker_args t := by
  unfold non_static_library_linker_fragments get_non_static_library_linker_args
  by_cases hs : t.project_settings.static
  · simp [hs, strJoin]
  · simp only [hs, if_false, Bool.false_eq_true]
    rw [strJoin_append, strJoin_append, strJoin_append]
    by_cases hp : t.project_settings.profile
    · by_cases hd : t.project_settings.type = ProjectType.SharedLibrary
      · simp [hp, hd, strJoin, String.append_empty, String.append_assoc]
      · simp [hp, hd, strJoin, String.append_empty, String.append_assoc]
    · by_cases hdl : t.project_settings.debug_level > 0
      · by_cases hd : t.project_settings.type = ProjectType.SharedLibrary
        · simp [hp, hdl, hd, strJoin, String.append_empty, String.append_assoc]
        · simp [hp, hdl, hd, strJoin, String.append_empty, String.append_assoc]
      · by_cases hd : t.project_settings.type = ProjectType.SharedLibrary
        · simp [hp, hdl, hd, strJoin, String.append_empty, String.append_assoc]
        · simp [hp, hdl, hd, strJoin, String.append_empty, String.append_assoc]

theorem subsystem_fragments_join (t : ToolchainMsvc) :
    strJoin (subsystem_fragments t) = get_subsystem_arg t := by
  unfold subsystem_fragments get_subsystem_arg
  by_cases h : t.subsystem = SubSystem.DEFAULT
  · simp [h, strJoin]
  · simp [h, strJoin, String.append_empty]

theorem compiler_fragments_join (np : String → String) (t : ToolchainMsvc) :
    strJoin (compiler_fragments np t) = getCompilerCommand np t := by
  unfold compiler_fragments getCompilerCommand get_compiler_args
  rw [get_preprocessor_definition_args_eq, get_include_directory_args_eq]
  simp only [List.append_eq, List.append_assoc, List.cons_append, List.nil_append,
    strJoin_append, strJoin, strJoin_intersperse, String.append_empty, String.empty_append,
    String.append_assoc]

theorem linker_fragments_join (np : String → String) (t : ToolchainMsvc)
    (output_file : String) (obj_list : List String) :
    strJoin (linker_fragments np t output_file obj_list) =
      getLinkerCommand np t output_file obj_list := by
  unfold linker_fragments getLinkerCommand get_linker_args
  rw [get_default_linker_args_eq, get_library_directory_args_eq, get_library_args_eq,
    get_linker_obj_file_args_eq]
  simp only [List.append_eq, List.append_assoc, List.cons_append, List.nil_append,
    strJoin_append, strJoin, strJoin_intersperse, non_static_library_linker_fragments_join,
    subsystem_fragments_join, String.append_empty, String.empty_append, String.append_assoc]

/-! ## Token-level helper lemmas -/

/-- A fragment is none of the dynamic-only linker flags: not the DLL flag,
not the profiling flag, not the debug flag, and not a runtime default-lib
directive. -/
def no_dynamic_only_tok (f : String) : Prop :=
  f ≠ "/DLL " ∧ f ≠ "/PROFILE " ∧ f ≠ "/DEBUG " ∧ ¬ ("/DEFAULTLIB:".data <+: f.data)

theorem no_dynamic_only_tok_of_lit (lit x : String) (h2 : 2 ≤ lit.data.length)
    (hD : lit.data.take 2 ≠ ['/', 'D']) (hP : lit.data.take 2 ≠ ['/', 'P']) :
    no_dynamic_only_tok (lit ++ x) := by
  have ht : ((lit ++ x).data).take 2 = lit.data.take 2 := take_of_lit_append 2 lit x h2
  refine ⟨ne_of_take 2 _ _ ?_, ne_of_take 2 _ _ ?_, ne_of_take 2 _ _ ?_, ?_⟩
  · rw [ht, (by decide : "/DLL ".data.take 2 = ['/', 'D'])]; exact hD
  · rw [ht, (by decide : "/PROFILE ".data.take 2 = ['/', 'P'])]; exact hP
  · rw [ht, (by decide : "/DEBUG ".data.take 2 = ['/', 'D'])]; exact hD
  · apply not_prefix_of_take 2 _ _ (by decide)
    rw [ht, (by decide : "/DEFAULTLIB:".data.take 2 = ['/', 'D'])]
    exact Ne.symm hD

theorem no_dynamic_only_tok_of_quote (x : String) : no_dynamic_only_tok ("\"" ++ x) := by
  have ht : (("\"" ++ x).data).take 1 = ['\"'] := take_of_lit_append 1 "\"" x (by decide)
  refine ⟨ne_of_take 1 _ _ ?_, ne_of_take 1 _ _ ?_, ne_of_take 1 _ _ ?_, ?_⟩
  · rw [ht]; decide
  · rw [ht]; decide
  · rw [ht]; decide
  · apply not_prefix_of_take 1 _ _ (by decide)
    rw [ht]; decide

theorem ne_wx_of_lit (lit x : String) (h2 : 2 ≤ lit.data.length)
    (hW : lit.data.take 2 ≠ ['/', 'W']) : (lit ++ x) ≠ "/WX " ∧ (lit ++ x) ≠ "/WX" := by
  have ht : ((lit ++ x).data).take 2 = lit.data.take 2 := take_of_lit_append 2 lit x h2
  constructor
  · apply ne_of_take 2
    rw [ht, (by decide : "/WX ".data.take 2 = ['/', 'W'])]; exact hW
  · apply ne_of_take 2
    rw [ht, (by decide : "/WX".data.take 2 = ['/', 'W'])]; exact hW

theorem ne_wx_of_quote (x : String) : ("\"" ++ x) ≠ "/WX " ∧ ("\"" ++ x) ≠ "/WX" := by
  have ht : (("\"" ++ x).data).take 1 = ['\"'] := take_of_lit_append 1 "\"" x (by decide)
  constructor
  · apply ne_of_take 1; rw [ht]; decide
  · apply ne_of_take 1; rw [ht]; decide

theorem subsys_startswith_false_of_lit (lit x : String) (h2 : 2 ≤ lit.data.length)
    (hS : lit.data.take 2 ≠ ['/', 'S']) :
    str_startswith "/SUBSYSTEM:" (lit ++ x) = false := by
  apply str_startswith_eq_false_of_take 2 _ _ (by decide)
  rw [take_of_lit_append 2 lit x h2, (by decide : "/SUBSYSTEM:".data.take 2 = ['/', 'S'])]
  exact Ne.symm hS

theorem subsys_startswith_false_of_quote (x : String) :
    str_startswith "/SUBSYSTEM:" ("\"" ++ x) = false := by
  apply str_startswith_eq_false_of_take 1 _ _ (by decide)
  rw [take_of_lit_append 1 "\"" x (by decide)]
  decide

/-! ## Claim theorems -/

/-- Claim C10: `getExtendedCompilerArgs` is independent of the
`force_include_file` argument — for every base command, output-object path
and input-file path, any two values of that argument yield byte-identical
output. -/
theorem c10_extended_args_independent_of_force_include
    (base_cmd fif1 fif2 output_obj input_file : String) :
    getExtendedCompilerArgs base_cmd fif1 output_obj input_file =
      getExtendedCompilerArgs base_cmd fif2 output_obj input_file := rfl

/-- Claim C9 evaluated at its failing input: `_get_linker_obj_file_args`
emits quote, path, space, quote for each object file, so the closing quote
does not immediately follow the path (the code transposes the quote and the
trailing space that every other fragment builder in the file uses). -/
theorem c9_obj_file_args_quote_misplaced :
    get_linker_obj_file_args ["a.obj"] = "\"a.obj \""
    ∧ get_linker_obj_file_args ["a.obj", "b.obj"] = "\"a.obj \"\"b.obj \""
    ∧ "\"a.obj \"" ≠ "\"a.obj\" " := by
  refine ⟨by decide, by decide, by decide⟩

/-- Claim C6: in the emitted include-directory arguments, every
user-specified include-directory flag (its path normalized) precedes every
default/system include-directory flag. -/
theorem c6_user_include_dirs_precede_defaults (np : String → String) (t : ToolchainMsvc) :
    get_include_directory_args np t =
      strJoin (t.project_settings.include_dirs.map (fun d => "/I\"" ++ np d ++ "\" "))
        ++ strJoin (t.include_path.map (fun d => "/I\"" ++ d ++ "\" ")) :=
  get_include_directory_args_eq np t

/-- Claim C1: the host string maps to 64-bit exactly for `amd64`/`x86_64`
(case-insensitively; anything unrecognized maps to 32-bit), and the
effective build architecture is 64-bit for a 64-bit host with no force
flags, 64-bit when only `force_64_bit` is set, 32-bit for a 32-bit host
with no force flags, and 32-bit when only `force_32_bit` is set. -/
theorem c1_architecture_decision (machine : String) (s : ProjectSettings) :
    (platform_arch machine = Arch.X64 ↔
      (strLower machine = "amd64" ∨ strLower machine = "x86_64"))
    ∧ (platform_arch machine = Arch.X64 → s.force_32_bit = false → s.force_64_bit = false →
        compute_build_64_bit (platform_arch machine) s = true)
    ∧ (s.force_64_bit = true → s.force_32_bit = false →
        compute_build_64_bit (platform_arch machine) s = true)
    ∧ (platform_arch machine = Arch.X86 → s.force_32_bit = false → s.force_64_bit = false →
        compute_build_64_bit (platform_arch machine) s = false)
    ∧ (s.force_32_bit = true → s.force_64_bit = false →
        compute_build_64_bit (platform_arch machine) s = false) := by
  refine ⟨platform_arch_x64_iff machine, ?_, ?_, ?_, ?_⟩
  · intro h h32 h64
    simp [compute_build_64_bit, h, h32, h64]
  · intro h64 h32
    simp [compute_build_64_bit, h64]
  · intro h h32 h64
    simp [compute_build_64_bit, h, h32, h64]
  · intro h32 h64
    simp [compute_build_64_bit, h32, h64]

/-- Witness for C1 at the concrete host string `AMD64` with no force
flags: the effective build architecture is 64-bit. -/
theorem c1_architecture_decision_witness :
    compute_build_64_bit (platform_arch "AMD64") test_settings = true :=
  (c1_architecture_decision "AMD64" test_settings).2.1 (by decide) rfl rfl

/-- Claim C7: `find_library` appends `.lib` and scans the directory list in
order: it returns `none` when no directory contains the file, and the path
in the earliest directory containing it otherwise (in particular when two
or more directories contain it). -/
theorem c7_find_library_first_match (fsExists : String → Bool) (library : String)
    ( force_static force_shared : Bool) :
    (∀ dirs : List String,
        (∀ x ∈ dirs, fsExists (osPathJoin x (library ++ ".lib")) = false) →
        find_library fsExists library dirs force_static force_shared = none)
    ∧ (∀ (pre : List String) (d : String) (post : List String),
        (∀ x ∈ pre, fsExists (osPathJoin x (library ++ ".lib")) = false) →
        fsExists (osPathJoin d (library ++ ".lib")) = true →
        find_library fsExists library (pre ++ d :: post) force_static force_shared =
          some (osPathJoin d (library ++ ".lib"))) := by
  constructor
  · intro dirs h
    unfold find_library
    induction dirs with
    | nil => rfl
    | cons x xs ih =>
        simp only [find_library.go, h x (by simp), Bool.false_eq_true, if_false]
        exact ih (fun y hy => h y (by simp [hy]))
  · intro pre d post hpre hd
    unfold find_library
    induction pre with
    | nil => simp [find_library.go, hd]
    | cons x xs ih =>
        simp only [List.cons_append, find_library.go, hpre x (by simp), Bool.false_eq_true,
          if_false]
        exact ih (fun y hy => hpre y (by simp [hy]))

/-- Witness for C7 at a concrete filesystem where `x.lib` exists in the
second and third of three directories: the path in the second (earliest
matching) directory is returned. -/
theorem c7_find_library_first_match_witness :
    find_library (fun p => p == "d2\\x.lib" || p == "d3\\x.lib") "x" ["d1", "d2", "d3"]
        false false = some (osPathJoin "d2" ("x" ++ ".lib"))
    ∧ osPathJoin "d2" ("x" ++ ".lib") = "d2\\x.lib" :=
  ⟨(c7_find_library_first_match (fun p => p == "d2\\x.lib" || p == "d3\\x.lib") "x"
      false false).2 ["d1"] "d2" ["d3"] (by decide) (by decide), by decide⟩

/-- Claim C5: when both `no_warnings` and `warnings_as_errors` are set, the
emitted diagnostics flag is the no-warnings flag `/w`; the compiler command
contains `/w` and contains no `/WX` fragment (resolution is by the fixed
check order, a total function, so no error is possible). The hypothesis on
`compiler_flags` keeps the user's free-form flags from smuggling the token
in. -/
theorem c5_no_warnings_wins (np : String → String) (t : ToolchainMsvc)
    (h1 : t.project_settings.no_warnings = true)
    (h2 : t.project_settings.warnings_as_errors = true)
    (hflags : ∀ f ∈ t.project_settings.compiler_flags, f ≠ "/WX " ∧ f ≠ "/WX") :
    get_warning_args t = "/w "
    ∧ strJoin (compiler_fragments np t) = getCompilerCommand np t
    ∧ "/w " ∈ compiler_fragments np t
    ∧ ∀ f ∈ compiler_fragments np t, f ≠ "/WX " ∧ f ≠ "/WX" := by
  have hw : get_warning_args t = "/w " := by simp [get_warning_args, h1]
  refine ⟨hw, compiler_fragments_join np t, ?_, ?_⟩
  · simp [compiler_fragments, hw]
  · simp only [compiler_fragments, List.append_assoc, List.cons_append, List.nil_append,
      List.forall_mem_append, List.forall_mem_cons, List.forall_mem_singleton,
      List.forall_mem_map]
    refine ⟨?_, ?_, ?_, ?_, ?_, ?_, ?_, ?_, ?_⟩
    · simp only [get_compiler_exe, String.append_assoc]
      exact ne_wx_of_quote _
    · decide
    · intro n hn
      simp only [String.append_assoc]
      exact ne_wx_of_lit "/D" (n ++ " ") (by decide) (by decide)
    · intro n hn
      simp only [String.append_assoc]
      exact ne_wx_of_lit "/U" (n ++ " ") (by decide) (by decide)
    · cases hsr : t.project_settings.static_runtime <;> cases hdr : t.debug_runtime <;>
        simp only [get_runtime_linkage_arg, hsr, hdr, if_true, if_false] <;> decide
    · rw [hw]; decide
    · intro d hd
      simp only [String.append_assoc]
      exact ne_wx_of_lit "/I\"" (np d ++ "\" ") (by decide) (by decide)
    · intro d hd
      simp only [String.append_assoc]
      exact ne_wx_of_lit "/I\"" (d ++ "\" ") (by decide) (by decide)
    · intro f hf
      rcases mem_intersperse hf with rfl | hmem
      · decide
      · exact hflags f hmem

/-- Witness for C5 at a concrete toolchain state with both warning settings
set: the emitted diagnostics flag is the no-warnings flag. -/
theorem c5_no_warnings_wins_witness :
    get_warning_args
      { test_toolchain with project_settings :=
        { test_settings with no_warnings := true, warnings_as_errors := true } } = "/w " :=
  (c5_no_warnings_wins id
    { test_toolchain with project_settings :=
      { test_settings with no_warnings := true, warnings_as_errors := true } }
    rfl rfl (fun f hf => absurd hf (List.not_mem_nil f))).1

theorem subsystem_fragments_no_dyn (t : ToolchainMsvc) :
    ∀ f ∈ subsystem_fragments t, no_dynamic_only_tok f := by
  unfold subsystem_fragments
  by_cases h : t.subsystem = SubSystem.DEFAULT
  · simp [h]
  · simp only [h, if_false]
    intro f hf
    simp only [List.mem_singleton] at hf
    subst hf
    simp only [String.append_assoc]
    exact no_dynamic_only_tok_of_lit "/SUBSYSTEM:" _ (by decide) (by decide) (by decide)

/-- Claim C3: for a static-library output the link command uses the archiver
binary `lib` instead of `link`; the dynamic-only arguments collapse to the
empty string; the command is independent of the profiling, debug-level,
runtime-linkage and shared-library settings; and no fragment of the command
is the DLL, profiling or debug flag or a runtime default-lib directive. The
hypothesis on `linker_flags` keeps the user's free-form flags from smuggling
the tokens in. -/
theorem c3_static_library_uses_archiver_no_dynamic_flags (np : String → String)
    (t : ToolchainMsvc) (output_file : String) (obj_list : List String)
    (hstatic : t.project_settings.static = true)
    (hflags : ∀ f ∈ t.project_settings.linker_flags, no_dynamic_only_tok f) :
    get_linker_exe t = "\"" ++ osPathJoin t.bin_path "lib" ++ "\" "
    ∧ get_non_static_library_linker_args t = ""
    ∧ (∀ (p srt dr : Bool) (dbg : Nat) (ty : ProjectType),
        getLinkerCommand np
          { t with debug_runtime := dr,
                   project_settings := { t.project_settings with
                     profile := p, debug_level := dbg, static_runtime := srt, type := ty } }
          output_file obj_list = getLinkerCommand np t output_file obj_list)
    ∧ strJoin (linker_fragments np t output_file obj_list) =
        getLinkerCommand np t output_file obj_list
    ∧ ∀ f ∈ linker_fragments np t output_file obj_list, no_dynamic_only_tok f := by
  have hexe : get_linker_exe t = "\"" ++ osPathJoin t.bin_path "lib" ++ "\" " := by
    simp [get_linker_exe, hstatic]
  have hargs : get_non_static_library_linker_args t = "" := by
    simp [get_non_static_library_linker_args, hstatic]
  refine ⟨hexe, hargs, ?_, linker_fragments_join np t output_file obj_list, ?_⟩
  · intro p srt dr dbg ty
    simp [getLinkerCommand, get_linker_exe, get_linker_args, get_default_linker_args,
      get_non_static_library_linker_args, hstatic, get_subsystem_arg, get_architecture_arg,
      get_linker_warning_arg, get_library_directory_args, get_linker_output_arg,
      get_library_args, get_linker_obj_file_args]
  · simp only [linker_fragments, non_static_library_linker_fragments, hstatic, if_true,
      List.append_assoc, List.cons_append, List.nil_append, List.forall_mem_append,
      List.forall_mem_cons, List.forall_mem_singleton, List.forall_mem_map]
    refine ⟨?_, ?_, ?_, ?_, ?_, ?_, ?_, ?_, ?_, ?_, ?_⟩
    · simp only [get_linker_exe, String.append_assoc]
      exact no_dynamic_only_tok_of_quote _
    · exact ⟨by decide, by decide, by decide, by decide⟩
    · intro x hx
      simp only [String.append_assoc]
      exact no_dynamic_only_tok_of_lit "/LIBPATH:\"" (x ++ "\" ") (by decide) (by decide)
        (by decide)
    · exact subsystem_fragments_no_dyn t
    · simp only [get_architecture_arg, String.append_assoc]
      exact no_dynamic_only_tok_of_lit "/MACHINE:" _ (by decide) (by decide) (by decide)
    · simp only [get_linker_warning_arg, String.append_assoc]
      exact no_dynamic_only_tok_of_lit "/WX" _ (by decide) (by decide) (by decide)
    · intro d hd
      simp only [String.append_assoc]
      exact no_dynamic_only_tok_of_lit "/LIBPATH:\"" (np d ++ "\" ") (by decide) (by decide)
        (by decide)
    · simp only [get_linker_output_arg, String.append_assoc]
      exact no_dynamic_only_tok_of_lit "/OUT:\"" _ (by decide) (by decide) (by decide)
    · refine ⟨fun l hl => ?_, fun l hl => ?_, fun l hl => ?_⟩ <;>
        (simp only [String.append_assoc]; exact no_dynamic_only_tok_of_quote _)
    · intro ob hob
      simp only [String.append_assoc]
      exact no_dynamic_only_tok_of_quote _
    · intro f hf
      rcases mem_intersperse hf with rfl | hmem
      · exact ⟨by decide, by decide, by decide, by decide⟩
      · exact hflags f hmem

/-- Witness for C3 at a concrete static-library toolchain state: the
dynamic-only linker arguments are empty. -/
theorem c3_static_library_uses_archiver_no_dynamic_flags_witness :
    get_non_static_library_linker_args
      { test_toolchain with project_settings := { test_settings with static := true } } = "" :=
  (c3_static_library_uses_archiver_no_dynamic_flags id
    { test_toolchain with project_settings := { test_settings with static := true } }
    "out.lib" [] rfl (fun f hf => absurd hf (List.not_mem_nil f))).2.1

theorem non_static_fragments_subsys_false (t : ToolchainMsvc) :
    ∀ f ∈ non_static_library_linker_fragments t,
      str_startswith "/SUBSYSTEM:" f = false := by
  unfold non_static_library_linker_fragments
  by_cases hs : t.project_settings.static = true
  · simp [hs]
  · simp only [hs, if_false, Bool.false_eq_true]
    intro f hf
    rcases List.mem_append.mp hf with hf | hf
    · rcases List.mem_append.mp hf with hf | hf
      · rcases List.mem_append.mp hf with hf | hf
        · rw [List.mem_singleton] at hf
          subst hf
          simp only [get_runtime_library_arg, String.append_assoc]
          exact subsys_startswith_false_of_lit "/DEFAULTLIB:" _ (by decide) (by decide)
        · split at hf
          · rw [List.mem_singleton] at hf; subst hf; decide
          · exact absurd hf (List.not_mem_nil f)
      · split at hf
        · rw [List.mem_singleton] at hf; subst hf; decide
        · exact absurd hf (List.not_mem_nil f)
    · split at hf
      · rw [List.mem_singleton] at hf; subst hf; decide
      · exact absurd hf (List.not_mem_nil f)

theorem non_static_fragments_countP_zero (t : ToolchainMsvc) :
    (non_static_library_linker_fragments t).countP
      (fun f => str_startswith "/SUBSYSTEM:" f) = 0 :=
  List.countP_eq_zero.mpr (by
    intro a ha
    simp [non_static_fragments_subsys_false t a ha])

theorem countP_map_startswith_zero {α : Type} (g : α → String) (l : List α)
    (h : ∀ a, str_startswith "/SUBSYSTEM:" (g a) = false) :
    (l.map g).countP (fun f => str_startswith "/SUBSYSTEM:" f) = 0 :=
  List.countP_eq_zero.mpr (by
    intro x hx
    rcases List.mem_map.mp hx with ⟨a, _, rfl⟩
    simp [h a])

theorem subsystem_fragments_countP (t : ToolchainMsvc) :
    (subsystem_fragments t).countP (fun f => str_startswith "/SUBSYSTEM:" f) =
      (if t.subsystem = SubSystem.DEFAULT then 0 else 1) := by
  unfold subsystem_fragments
  by_cases h : t.subsystem = SubSystem.DEFAULT
  · simp [h]
  · simp only [h, if_false]
    simp [List.countP_cons, String.append_assoc, str_startswith_append]

/-- Claim C4: the link command carries no `/SUBSYSTEM` token when the chosen
subsystem is `DEFAULT`, and exactly one `/SUBSYSTEM:<name>` token — with the
name drawn from the fixed `sub_system_type` table — for every other value.
The hypothesis on `linker_flags` keeps the user's free-form flags from
smuggling such a token in. -/
theorem c4_subsystem_flag (np : String → String) (t : ToolchainMsvc)
    (output_file : String) (obj_list : List String)
    (hflags : ∀ f ∈ t.project_settings.linker_flags,
      str_startswith "/SUBSYSTEM:" f = false) :
    strJoin (linker_fragments np t output_file obj_list) =
      getLinkerCommand np t output_file obj_list
    ∧ (linker_fragments np t output_file obj_list).countP
        (fun f => str_startswith "/SUBSYSTEM:" f) =
      (if t.subsystem = SubSystem.DEFAULT then 0 else 1)
    ∧ (t.subsystem ≠ SubSystem.DEFAULT →
        ("/SUBSYSTEM:" ++ sub_system_type t.subsystem ++ " ")
          ∈ linker_fragments np t output_file obj_list) := by
  have hexe0 : str_startswith "/SUBSYSTEM:" (get_linker_exe t) = false := by
    simp only [get_linker_exe, String.append_assoc]
    exact subsys_startswith_false_of_quote _
  have hno0 : str_startswith "/SUBSYSTEM:" "/NOLOGO " = false := by decide
  have harch0 : str_startswith "/SUBSYSTEM:" (get_architecture_arg t) = false := by
    simp only [get_architecture_arg, String.append_assoc]
    exact subsys_startswith_false_of_lit "/MACHINE:" _ (by decide) (by decide)
  have hwarn0 : str_startswith "/SUBSYSTEM:" (get_linker_warning_arg t) = false := by
    simp only [get_linker_warning_arg, String.append_assoc]
    exact subsys_startswith_false_of_lit "/WX" _ (by decide) (by decide)
  have hout0 : str_startswith "/SUBSYSTEM:" (get_linker_output_arg output_file) = false := by
    simp only [get_linker_output_arg, String.append_assoc]
    exact subsys_startswith_false_of_lit "/OUT:\"" _ (by decide) (by decide)
  have hlibp : (t.lib_path.map (fun p => "/LIBPATH:\"" ++ p ++ "\" ")).countP
      (fun f => str_startswith "/SUBSYSTEM:" f) = 0 :=
    countP_map_startswith_zero _ _ (fun a => by
      simp only [String.append_assoc]
      exact subsys_startswith_false_of_lit "/LIBPATH:\"" _ (by decide) (by decide))
  have hlibd : (t.project_settings.library_dirs.map
      (fun d => "/LIBPATH:\"" ++ np d ++ "\" ")).countP
      (fun f => str_startswith "/SUBSYSTEM:" f) = 0 :=
    countP_map_startswith_zero _ _ (fun a => by
      simp only [String.append_assoc]
      exact subsys_startswith_false_of_lit "/LIBPATH:\"" _ (by decide) (by decide))
  have hlibs : ((t.project_settings.libraries ++ t.project_settings.static_libraries
      ++ t.project_settings.shared_libraries).map (fun l => "\"" ++ l ++ ".lib\" ")).countP
      (fun f => str_startswith "/SUBSYSTEM:" f) = 0 :=
    countP_map_startswith_zero _ _ (fun a => by
      simp only [String.append_assoc]
      exact subsys_startswith_false_of_quote _)
  have hobjs : (obj_list.map (fun ob => "\"" ++ ob ++ " \"")).countP
      (fun f => str_startswith "/SUBSYSTEM:" f) = 0 :=
    countP_map_startswith_zero _ _ (fun a => by
      simp only [String.append_assoc]
      exact subsys_startswith_false_of_quote _)
  have hflagsc : (List.intersperse " " t.project_settings.linker_flags).countP
      (fun f => str_startswith "/SUBSYSTEM:" f) = 0 :=
    List.countP_eq_zero.mpr (by
      intro f hf
      rcases mem_intersperse hf with rfl | hm
      · decide
      · simp [hflags f hm])
  refine ⟨linker_fragments_join np t output_file obj_list, ?_, ?_⟩
  · simp only [linker_fragments, List.append_assoc, List.cons_append, List.nil_append,
      List.countP_append, List.countP_cons, List.countP_nil]
    simp [hexe0, hno0, harch0, hwarn0, hout0, non_static_fragments_countP_zero t,
      subsystem_fragments_countP t, hlibp, hlibd, hlibs, hobjs, hflagsc]
    refine ⟨?_, ?_, ?_⟩ <;>
      (intro a ha; simp only [String.append_assoc]; exact subsys_startswith_false_of_quote _)
  · intro hss
    simp [linker_fragments, subsystem_fragments, hss]

/-- Witness for C4 at a concrete toolchain state with the `CONSOLE`
subsystem: the link command carries exactly one `/SUBSYSTEM:` token. -/
theorem c4_subsystem_flag_witness :
    (linker_fragments id { test_toolchain with subsystem := SubSystem.CONSOLE }
        "out.exe" []).countP (fun f => str_startswith "/SUBSYSTEM:" f) = 1 := by
  have h := (c4_subsystem_flag id { test_toolchain with subsystem := SubSystem.CONSOLE }
    "out.exe" [] (fun f hf => absurd hf (List.not_mem_nil f))).2.1
  simpa using h

/-- Once the process-wide state is set, every further `SetupForProject` call
(for any settings, hence any architecture) takes the memoized branch: it
spawns nothing, leaves the state unchanged, and builds its paths from the
memoized SDK root. -/
theorem runSetups_memoized (np : String → String) (env : String → Option String)
    (machine : String) (spawn : Bool → Option (List String)) (mv : Nat) (dr : Bool)
    (ss : SubSystem) (ev : String) (henv : env (vcEnvVarName mv) = some ev)
    (calls : List ProjectSettings) (sdk : String) :
    runSetups np env machine spawn mv dr ss calls ⟨true, sdk⟩ =
      (calls.map (fun c => some (appendSdk (setupBase np ev machine c dr ss) sdk, false)),
       ⟨true, sdk⟩) := by
  induction calls with
  | nil => rfl
  | cons c rest ih =>
      simp only [runSetups, SetupForProject, henv]
      simp [ih]

/-- Claim C2: across every sequence of `SetupForProject` calls in one
process (started from the initial global state), the environment-setup
subprocess is spawned exactly by the first call and by no later call, and
every later call reuses the SDK root captured by the first call, whatever
settings (hence whatever architecture) it requests. -/
theorem c2_subprocess_spawned_once (np : String → String) (env : String → Option String)
    (machine : String) (spawn : Bool → Option (List String)) (mv : Nat) (dr : Bool)
    (ss : SubSystem) (outF : Bool → List String) (ev : String)
    (henv : env (vcEnvVarName mv) = some ev)
    (hspawn : ∀ b, spawn b = some (outF b))
    (s : ProjectSettings) (calls : List ProjectSettings) :
    runSetups np env machine spawn mv dr ss (s :: calls) ⟨false, ""⟩ =
      (some (appendSdk (setupBase np ev machine s dr ss)
          ((findSdkLine (outF (setupBase np ev machine s dr ss).build_64_bit)).getD ""),
          true)
        :: calls.map (fun c =>
            some (appendSdk (setupBase np ev machine c dr ss)
              ((findSdkLine (outF (setupBase np ev machine s dr ss).build_64_bit)).getD ""),
              false)),
       ⟨true, (findSdkLine (outF (setupBase np ev machine s dr ss).build_64_bit)).getD ""⟩) := by
  simp only [runSetups, SetupForProject, henv, hspawn]
  simp [runSetups_memoized np env machine spawn mv dr ss ev henv calls]

/-- Witness for C2 at a concrete environment: two calls from the initial
state; the first spawns the subprocess and captures the SDK root, the
second spawns nothing and reuses it. -/
theorem c2_subprocess_spawned_once_witness :
    runSetups id (fun k => if k = "VS100COMNTOOLS" then some "C:\\tools" else none)
        "amd64" (fun b => some ["WindowsSdkDir=C:\\SDK"]) 100 false SubSystem.DEFAULT
        [test_settings, test_settings] ⟨false, ""⟩ =
      (some (appendSdk (setupBase id "C:\\tools" "amd64" test_settings false
            SubSystem.DEFAULT)
          ((findSdkLine ((fun b => ["WindowsSdkDir=C:\\SDK"])
              (setupBase id "C:\\tools" "amd64" test_settings false
                SubSystem.DEFAULT).build_64_bit)).getD ""),
          true)
        :: [test_settings].map (fun c =>
            some (appendSdk (setupBase id "C:\\tools" "amd64" c false SubSystem.DEFAULT)
              ((findSdkLine ((fun b => ["WindowsSdkDir=C:\\SDK"])
                  (setupBase id "C:\\tools" "amd64" test_settings false
                    SubSystem.DEFAULT).build_64_bit)).getD ""),
              false)),
       ⟨true, (findSdkLine ((fun b => ["WindowsSdkDir=C:\\SDK"])
          (setupBase id "C:\\tools" "amd64" test_settings false
            SubSystem.DEFAULT).build_64_bit)).getD ""⟩) :=
  c2_subprocess_spawned_once id
    (fun k => if k = "VS100COMNTOOLS" then some "C:\\tools" else none) "amd64"
    (fun b => some ["WindowsSdkDir=C:\\SDK"]) 100 false SubSystem.DEFAULT
    (fun b => ["WindowsSdkDir=C:\\SDK"]) "C:\\tools" (by decide) (fun b => rfl)
    test_settings [test_settings]

/-- Claim C8 as amended: resolution fails at the environment-variable lookup
(before anything else is computed) when the installation hint is absent, and
fails at the subprocess when the setup script cannot be run; but when the
script runs and its output contains no `WindowsSdkDir=` line, resolution
does NOT fail — it completes, keeping the prior (initially empty) SDK
root. -/
theorem c8_amended_environment_resolution (np : String → String)
    (env : String → Option String) (machine : String)
    (spawn : Bool → Option (List String)) (mv : Nat) (dr : Bool) (ss : SubSystem)
    (s : ProjectSettings) (st : VcVarsState) :
    (env (vcEnvVarName mv) = none →
      SetupForProject np env machine spawn mv dr ss s st =
        Except.error SetupError.toolchainNotFound)
    ∧ (∀ ev, env (vcEnvVarName mv) = some ev → st.has_set_vc_vars = false →
        spawn (setupBase np ev machine s dr ss).build_64_bit = none →
        SetupForProject np env machine spawn mv dr ss s st =
          Except.error SetupError.environmentScriptError)
    ∧ (∀ ev out, env (vcEnvVarName mv) = some ev → st.has_set_vc_vars = false →
        spawn (setupBase np ev machine s dr ss).build_64_bit = some out →
        findSdkLine out = none →
        SetupForProject np env machine spawn mv dr ss s st =
          Except.ok (appendSdk (setupBase np ev machine s dr ss) st.windows_sdk_dir,
            ⟨true, st.windows_sdk_dir⟩, true)) := by
  refine ⟨?_, ?_, ?_⟩
  · intro h
    simp [SetupForProject, h]
  · intro ev henv hset hspawn
    simp [SetupForProject, henv, hset, hspawn]
  · intro ev out henv hset hspawn hsdk
    simp [SetupForProject, henv, hset, hspawn, hsdk]

/-- Witness for C8 (amended) at a concrete environment with the
installation-hint variable absent: resolution fails before anything is
computed. -/
theorem c8_amended_environment_resolution_witness :
    SetupForProject id (fun k => none) "amd64" (fun b => none) 100 false
        SubSystem.DEFAULT test_settings ⟨false, ""⟩ =
      Except.error SetupError.toolchainNotFound :=
  (c8_amended_environment_resolution id (fun k => none) "amd64" (fun b => none) 100 false
    SubSystem.DEFAULT test_settings ⟨false, ""⟩).1 rfl

/-- Counterexample to C8 as stated: a run whose setup-script output contains
no line beginning with `WindowsSdkDir=` does not fail with any error — it
completes successfully with an empty SDK root. -/
theorem c8_counterexample_no_sdk_line_still_succeeds :
    findSdkLine ["FOO=1"] = none
    ∧ SetupForProject id (fun k => if k = "VS100COMNTOOLS" then some "C:\\tools" else none)
        "amd64" (fun b => some ["FOO=1"]) 100 false SubSystem.DEFAULT test_settings
        ⟨false, ""⟩ =
      Except.ok (appendSdk (setupBase id "C:\\tools" "amd64" test_settings false
          SubSystem.DEFAULT) "", ⟨true, ""⟩, true) := by
  constructor
  · rfl
  · rfl

end Msvc
